import Mathlib

/-!
Verification development for the HDR-merge node in `src/hdr_processing.py`
(class HDRProcessingInvocation).  The data model, the `create_hdr_image`
pipeline and the `invoke` control flow are embedded shallowly; each run
additionally produces an explicit event trace recording the processing steps
and side effects in execution order, so that ordering and side-effect
properties can be stated.
-/

namespace HDR

/-- An 8-bit pixel: three colour channels held as naturals. -/
structure Pixel where
  r : ℕ
  g : ℕ
  b : ℕ
deriving DecidableEq

/-- A decoded raster: rows of pixels (height × width × 3 channels). -/
abbrev Raster := List (List Pixel)

/-- A floating-point pixel (channels modelled as rationals), as produced by
the merge and tonemap stages before conversion back to 8 bit.  The channels
are positional (they follow whatever ordering the surrounding raster uses). -/
structure QPixel where
  c1 : ℚ
  c2 : ℚ
  c3 : ℚ
deriving DecidableEq

/-- A floating-point raster (the radiance map or the tonemapped image). -/
abbrev QRaster := List (List QPixel)

/-- Number of rows of a raster. -/
def rasterHeight {α : Type} (img : List (List α)) : ℕ := img.length

/-- Width of a raster, read off its first row (0 for an empty raster). -/
def rasterWidth {α : Type} (img : List (List α)) : ℕ := (img.headD []).length

/-- The raster has exactly `h` rows and every row has width `w`. -/
def HasDims {α : Type} (img : List (List α)) (w h : ℕ) : Prop :=
  img.length = h ∧ ∀ row ∈ img, row.length = w

/-- Channel reversal of one pixel (RGB ↔ BGR). -/
def swapRB (p : Pixel) : Pixel := ⟨p.b, p.g, p.r⟩

/-- Line 24, cv2.cvtColor(·, cv2.COLOR_RGB2BGR): reverse the channel order of
every pixel of the raster. -/
def cvtColor_RGB2BGR (img : Raster) : Raster := img.map (List.map swapRB)

/-- Line 39, cv2.cvtColor(·, cv2.COLOR_BGR2RGB): the same channel reversal,
taking the raster back to its native ordering. -/
def cvtColor_BGR2RGB (img : Raster) : Raster := img.map (List.map swapRB)

/-- np.clip(y, 0, 255) on one scalar: clamp to the interval [0, 255]. -/
def npClip255 (y : ℚ) : ℚ := max 0 (min y 255)

/-- One channel of line 37: np.clip(x * 255, 0, 255).astype(np.uint8), i.e.
scale to 8-bit range, clamp, then truncate to an unsigned byte. -/
def toByte (x : ℚ) : ℕ := (Int.floor (npClip255 (x * 255))).toNat

/-- Line 37 on a whole raster: scale the normalized tonemap output to 8-bit
range, clamping to [0, 255], and convert every channel to a byte. -/
def scaleClampConvert (img : QRaster) : Raster :=
  img.map (List.map fun p => ⟨toByte p.c1, toByte p.c2, toByte p.c3⟩)

/-- Modelled from the spec: the external vision library (cv2) is an opaque
collaborator supplying multi-image alignment (createAlignMTB), Debevec-style
exposure merge (createMergeDebevec) and gamma tonemapping (createTonemap);
its internals are outside this repository, so it is a parameter of the model. -/
structure VisionLib where
  alignMTB : List Raster → List Raster
  mergeDebevec : List Raster → List ℚ → QRaster
  tonemap : ℚ → QRaster → QRaster

/-- Python exceptions as distinguished by the component: FileNotFoundError,
ValueError (the validation failure of line 27), and every other exception. -/
inductive PyErr where
  | fileNotFound (m : String)
  | valueError (m : String)
  | other (m : String)
deriving DecidableEq

/-- Whether the exception is a FileNotFoundError (the class tested by the
first except clause, line 65). -/
def PyErr.isFileNotFound : PyErr → Bool
  | .fileNotFound _ => true
  | _ => false

/-- The message carried by the exception. -/
def PyErr.msg : PyErr → String
  | .fileNotFound m => m
  | .valueError m => m
  | .other m => m

/-- Origin values of the host image-record service; the node always submits
ResourceOrigin.INTERNAL (line 53). -/
inductive ResourceOrigin where
  | internal
  | user
deriving DecidableEq

/-- Category values of the host image-record service; the node always submits
ImageCategory.GENERAL (line 54). -/
inductive ImageCategory where
  | general
  | control
  | mask
deriving DecidableEq

/-- The metadata passed to context.services.images.create (lines 51-58). -/
structure ImageMeta where
  image_origin : ResourceOrigin
  image_category : ImageCategory
  node_id : String
  session_id : String
  is_intermediate : Bool
deriving DecidableEq

/-- Observable steps and side effects of one invocation, in execution order.
A `store` event is recorded only when the storage service actually creates
the image. -/
inductive Event where
  | getImage (name : String)
  | convertRGB2BGR
  | align
  | mergeDebevec (times : List ℚ)
  | tonemap (gamma : ℚ)
  | clampConvert
  | convertBGR2RGB
  | store (image : Raster) (meta : ImageMeta)
  | logError (m : String)
deriving DecidableEq

/-- Whether the event is a log entry. -/
def Event.isLogError : Event → Bool
  | .logError _ => true
  | _ => false

/-- Whether the event is the creation of a stored image. -/
def Event.isStore : Event → Bool
  | .store _ _ => true
  | _ => false

instance {ε α : Type} [DecidableEq ε] [DecidableEq α] : DecidableEq (Except ε α) := fun x y =>
  match x, y with
  | Except.ok a, Except.ok b =>
    if h : a = b then isTrue (by rw [h]) else isFalse (fun hc => h (Except.ok.inj hc))
  | Except.error a, Except.error b =>
    if h : a = b then isTrue (by rw [h]) else isFalse (fun hc => h (Except.error.inj hc))
  | Except.ok _, Except.error _ => isFalse (fun hc => Except.noConfusion hc)
  | Except.error _, Except.ok _ => isFalse (fun hc => Except.noConfusion hc)

/-- The ValueError message of line 27. -/
def mismatchMsg : String :=
  "The number of images does not match the number of exposure times."

/-- create_hdr_image (lines 20-40): convert every input image to BGR
(line 24), validate the length equality (lines 26-27), align the whole set
(lines 29-30), merge with the exposure times (lines 32-33), tonemap with
gamma 2.2 (lines 35-36), scale/clamp/convert to 8 bit (line 37) and convert
back to RGB (line 39).  The color conversion of line 24 runs before the
validation of line 26, exactly as in the source. -/
def createHdrImage (lib : VisionLib) (images : List Raster)
    (exposure_times : List ℚ) : List Event × Except PyErr Raster :=
  let images_cv := images.map cvtColor_RGB2BGR
  if images_cv.length ≠ exposure_times.length then
    ([Event.convertRGB2BGR], Except.error (PyErr.valueError mismatchMsg))
  else
    let aligned := lib.alignMTB images_cv
    let hdr_image := lib.mergeDebevec aligned exposure_times
    let ldr_image := lib.tonemap 2.2 hdr_image
    let ldr8 := scaleClampConvert ldr_image
    ([Event.convertRGB2BGR, Event.align, Event.mergeDebevec exposure_times,
      Event.tonemap 2.2, Event.clampConvert, Event.convertBGR2RGB],
     Except.ok (cvtColor_BGR2RGB ldr8))

/-- A stored-image record returned by the host image-storage service. -/
structure StoredImage where
  image_name : String
  width : ℕ
  height : ℕ
deriving DecidableEq

/-- The invocation context: the host services used by invoke.  Both service
calls may raise a Python exception, modelled as Except. -/
structure Context where
  getPilImage : String → Except PyErr Raster
  createImage : Raster → ImageMeta → Except PyErr StoredImage
  graph_execution_state_id : String

/-- An image reference field. -/
structure ImageField where
  image_name : String
deriving DecidableEq

/-- Modelled from the spec: the host's ImageOutput record; the spec describes
ImageOutput() (line 67) as the default/empty output record. -/
structure ImageOutput where
  image : Option ImageField
  width : ℕ
  height : ℕ
deriving DecidableEq

/-- The default/empty output record returned on the handled not-found path. -/
def emptyImageOutput : ImageOutput := ⟨none, 0, 0⟩

/-- The node's declared input fields plus its base-invocation identity. -/
structure HDRProcessingInvocation where
  id : String
  is_intermediate : Bool
  input_images : List ImageField
  exposure_times : List ℚ

/-- Line 48: resolve every input image reference, in list order, through
context.services.images.get_pil_image; the first exception aborts the
comprehension and propagates. -/
def resolveImages (ctx : Context) :
    List ImageField → List Event × Except PyErr (List Raster)
  | [] => ([], Except.ok [])
  | f :: fs =>
    match ctx.getPilImage f.image_name with
    | Except.error e => ([Event.getImage f.image_name], Except.error e)
    | Except.ok img =>
      let rest := resolveImages ctx fs
      (Event.getImage f.image_name :: rest.1, rest.2.map (fun l => img :: l))

/-- The metadata the node submits with the output raster (lines 53-57). -/
def nodeMeta (node : HDRProcessingInvocation) (ctx : Context) : ImageMeta :=
  ⟨ResourceOrigin.internal, ImageCategory.general, node.id,
   ctx.graph_execution_state_id, node.is_intermediate⟩

/-- The try block of invoke (lines 47-64): resolve the inputs, run the HDR
pipeline, store the result with the node's metadata, and build the output
record from the stored image's name and dimensions. -/
def tryBlock (node : HDRProcessingInvocation) (lib : VisionLib) (ctx : Context) :
    List Event × Except PyErr ImageOutput :=
  match resolveImages ctx node.input_images with
  | (evs, Except.error e) => (evs, Except.error e)
  | (evs, Except.ok input_pil_images) =>
    match createHdrImage lib input_pil_images node.exposure_times with
    | (evs2, Except.error e) => (evs ++ evs2, Except.error e)
    | (evs2, Except.ok hdr_result) =>
      match ctx.createImage hdr_result (nodeMeta node ctx) with
      | Except.error e => (evs ++ evs2, Except.error e)
      | Except.ok out =>
        (evs ++ evs2 ++ [Event.store hdr_result (nodeMeta node ctx)],
         Except.ok ⟨some ⟨out.image_name⟩, out.width, out.height⟩)

/-- invoke (lines 42-70): run the try block; a FileNotFoundError is logged
and converted into the empty output record (lines 65-67); any other exception
is logged and re-raised unchanged (lines 68-70). -/
def invoke (node : HDRProcessingInvocation) (lib : VisionLib) (ctx : Context) :
    List Event × Except PyErr ImageOutput :=
  match tryBlock node lib ctx with
  | (evs, Except.ok out) => (evs, Except.ok out)
  | (evs, Except.error e) =>
    if e.isFileNotFound then
      (evs ++ [Event.logError ("File not found: " ++ e.msg)],
       Except.ok emptyImageOutput)
    else
      (evs ++ [Event.logError ("Unexpected error: " ++ e.msg)],
       Except.error e)

/-- The raster produced by the success path of create_hdr_image, as a function
of the library, the resolved images and the exposure times (lines 29-39). -/
def pipelineOut (lib : VisionLib) (imgs : List Raster) (times : List ℚ) : Raster :=
  cvtColor_BGR2RGB (scaleClampConvert
    (lib.tonemap 2.2 (lib.mergeDebevec (lib.alignMTB (imgs.map cvtColor_RGB2BGR)) times)))

/-- All channel values of a row of pixels. -/
def rowChannels : List Pixel → List ℕ
  | [] => []
  | p :: ps => p.r :: p.g :: p.b :: rowChannels ps

/-- All channel values occurring in a raster. -/
def rasterChannels : Raster → List ℕ
  | [] => []
  | row :: rows => rowChannels row ++ rasterChannels rows

/-- Modelled from the spec: the vision library's alignment operates across the
whole image set without changing the number of images, and alignment, merge
and tonemap all preserve the raster dimensions (the merged radiance map and
the tonemapped image have the dimensions of the aligned inputs). -/
structure DimPreserving (lib : VisionLib) : Prop where
  align_length : ∀ imgs, (lib.alignMTB imgs).length = imgs.length
  align_dims : ∀ w h imgs, (∀ i ∈ imgs, HasDims i w h) →
    ∀ j ∈ lib.alignMTB imgs, HasDims j w h
  merge_dims : ∀ w h imgs times, imgs ≠ [] → (∀ i ∈ imgs, HasDims i w h) →
    HasDims (lib.mergeDebevec imgs times) w h
  tonemap_dims : ∀ w h g x, HasDims x w h → HasDims (lib.tonemap g x) w h

/-! Concrete instances used to exhibit runs of the model on explicit inputs:
a small raster, a particular (dimension-preserving) choice of library
functions, and contexts whose services always succeed or always fail. -/

/-- A pixel with rational channels obtained from an 8-bit pixel. -/
def qOfPixel (p : Pixel) : QPixel := ⟨(p.r : ℚ), (p.g : ℚ), (p.b : ℚ)⟩

/-- A rational raster obtained from an 8-bit raster. -/
def qOfRaster (img : Raster) : QRaster := img.map (List.map qOfPixel)

/-- A concrete 1×1 test raster. -/
def wRaster : Raster := [[⟨1, 2, 3⟩]]

/-- A concrete choice of library functions: alignment is the identity, the
merge returns the first image as a rational raster, the tonemap is the
identity. -/
def wLib : VisionLib :=
  ⟨fun imgs => imgs,
   fun imgs _ => match imgs with
     | [] => []
     | i :: _ => qOfRaster i,
   fun _ x => x⟩

/-- A context whose image service always returns the test raster and whose
storage service always succeeds, reporting the stored raster's dimensions. -/
def wCtx : Context :=
  ⟨fun _ => Except.ok wRaster,
   fun img _ => Except.ok ⟨"out", rasterWidth img, rasterHeight img⟩,
   "sess"⟩

/-- A second context with the same image service as `wCtx` but a different
session id and a different storage service. -/
def wCtx2 : Context :=
  ⟨fun _ => Except.ok wRaster,
   fun img _ => Except.ok ⟨"other", rasterWidth img, rasterHeight img⟩,
   "sess2"⟩

/-- A context whose image service always fails with a not-found condition. -/
def cCtxMissing : Context :=
  ⟨fun _ => Except.error (PyErr.fileNotFound "img"),
   fun img _ => Except.ok ⟨"out", rasterWidth img, rasterHeight img⟩,
   "sess"⟩

/-- A node with two input images and two exposure times (a valid input). -/
def wNode : HDRProcessingInvocation := ⟨"node1", false, [⟨"a"⟩, ⟨"b"⟩], [1, 2]⟩

/-- A node with one input image and no exposure times (a length mismatch). -/
def cNode : HDRProcessingInvocation := ⟨"node1", false, [⟨"a"⟩], []⟩

/-- The raster stored by a run of `wNode` against `wCtx` with `wLib`. -/
def wStored : Raster := pipelineOut wLib [wRaster, wRaster] [1, 2]

/-! Basic lemmas about the pixel-level operations. -/

theorem swapRB_swapRB (p : Pixel) : swapRB (swapRB p) = p := rfl

theorem map_swapRB_map_swapRB (row : List Pixel) :
    (row.map swapRB).map swapRB = row := by
  induction row with
  | nil => rfl
  | cons p ps ih => simp [List.map_cons, swapRB_swapRB, ih]

theorem toByte_le (x : ℚ) : toByte x ≤ 255 := by
  unfold toByte npClip255
  have h1 : max 0 (min (x * 255) 255) ≤ (255 : ℚ) :=
    max_le (by norm_num) (min_le_right _ _)
  have h2 : Int.floor (max 0 (min (x * 255) 255)) ≤ (255 : ℤ) := by
    have h3 := Int.floor_le_floor h1
    simpa using h3
  exact Int.toNat_le.mpr (by exact_mod_cast h2)

theorem mem_rowChannels_le (row : List QPixel) (v : ℕ)
    (hv : v ∈ rowChannels (row.map fun p => ⟨toByte p.c1, toByte p.c2, toByte p.c3⟩)) :
    v ≤ 255 := by
  induction row with
  | nil => simp [rowChannels] at hv
  | cons p ps ih =>
    simp only [List.map_cons, rowChannels, List.mem_cons] at hv
    rcases hv with h | h | h | h
    · exact h ▸ toByte_le p.c1
    · exact h ▸ toByte_le p.c2
    · exact h ▸ toByte_le p.c3
    · exact ih h

theorem mem_rasterChannels_scaleClampConvert (img : QRaster) (v : ℕ)
    (hv : v ∈ rasterChannels (scaleClampConvert img)) : v ≤ 255 := by
  induction img with
  | nil => simp [scaleClampConvert, rasterChannels] at hv
  | cons row rows ih =>
    simp only [scaleClampConvert, List.map_cons, rasterChannels,
      List.mem_append] at hv
    rcases hv with h | h
    · exact mem_rowChannels_le row v h
    · exact ih (by simpa [scaleClampConvert] using h)

theorem mem_rowChannels_swapRB (row : List Pixel) (v : ℕ)
    (hv : v ∈ rowChannels (row.map swapRB)) : v ∈ rowChannels row := by
  induction row with
  | nil => simp [rowChannels] at hv
  | cons p ps ih =>
    simp only [List.map_cons, rowChannels, swapRB, List.mem_cons] at hv ⊢
    tauto

theorem mem_rasterChannels_cvtColor (img : Raster) (v : ℕ)
    (hv : v ∈ rasterChannels (cvtColor_BGR2RGB img)) :
    v ∈ rasterChannels img := by
  induction img with
  | nil => simp [cvtColor_BGR2RGB, rasterChannels] at hv
  | cons row rows ih =>
    simp only [cvtColor_BGR2RGB, List.map_cons, rasterChannels,
      List.mem_append] at hv ⊢
    rcases hv with h | h
    · exact Or.inl (mem_rowChannels_swapRB row v h)
    · exact Or.inr (ih (by simpa [cvtColor_BGR2RGB] using h))

theorem pipelineOut_channels_le (lib : VisionLib) (imgs : List Raster)
    (times : List ℚ) (v : ℕ) (hv : v ∈ rasterChannels (pipelineOut lib imgs times)) :
    v ≤ 255 := by
  unfold pipelineOut at hv
  exact mem_rasterChannels_scaleClampConvert _ v
    (mem_rasterChannels_cvtColor _ v hv)

/-! Lemmas about the image-resolution loop (line 48). -/

theorem resolve_events (ctx : Context) (fs : List ImageField) :
    ∀ e ∈ (resolveImages ctx fs).1, ∃ n, e = Event.getImage n := by
  induction fs with
  | nil => intro e he; simp [resolveImages] at he
  | cons f fs ih =>
    intro e he
    cases hg : ctx.getPilImage f.image_name with
    | error err =>
      simp [resolveImages, hg] at he
      exact ⟨f.image_name, he⟩
    | ok img =>
      simp only [resolveImages, hg, List.mem_cons] at he
      rcases he with he | he
      · exact ⟨f.image_name, he⟩
      · exact ih e he

theorem resolveImages_ok (ctx : Context) (fs : List ImageField)
    (P : Raster → Prop)
    (h : ∀ f ∈ fs, ∃ img, ctx.getPilImage f.image_name = Except.ok img ∧ P img) :
    ∃ imgs, resolveImages ctx fs =
        (fs.map fun f => Event.getImage f.image_name, Except.ok imgs) ∧
      imgs.length = fs.length ∧ ∀ i ∈ imgs, P i := by
  induction fs with
  | nil => exact ⟨[], rfl, rfl, by simp⟩
  | cons f fs ih =>
    obtain ⟨img, hg, hP⟩ := h f (by simp)
    obtain ⟨imgs, heq, hlen, hall⟩ := ih (fun g hg => h g (by simp [hg]))
    refine ⟨img :: imgs, ?_, by simp [hlen], ?_⟩
    · simp [resolveImages, hg, heq, Except.map]
    · intro i hi
      rcases List.mem_cons.mp hi with rfl | hi
      · exact hP
      · exact hall i hi

theorem resolveImages_length (ctx : Context) (fs : List ImageField)
    (imgs : List Raster) (h : (resolveImages ctx fs).2 = Except.ok imgs) :
    imgs.length = fs.length := by
  induction fs generalizing imgs with
  | nil =>
    simp [resolveImages] at h
    simp [← h]
  | cons f fs ih =>
    cases hg : ctx.getPilImage f.image_name with
    | error e => simp [resolveImages, hg] at h
    | ok img =>
      simp only [resolveImages, hg] at h
      cases hr : (resolveImages ctx fs).2 with
      | error e => rw [hr] at h; simp [Except.map] at h
      | ok l =>
        rw [hr] at h
        simp only [Except.map, Except.ok.injEq] at h
        subst h
        simp [ih l hr]

theorem resolveImages_congr (ctx1 ctx2 : Context) (fs : List ImageField)
    (h : ∀ f ∈ fs, ctx1.getPilImage f.image_name = ctx2.getPilImage f.image_name) :
    resolveImages ctx1 fs = resolveImages ctx2 fs := by
  induction fs with
  | nil => rfl
  | cons f fs ih =>
    have hf := h f (by simp)
    simp [resolveImages, hf, ih fun g hg => h g (by simp [hg])]

/-! Equations for the two branches of create_hdr_image. -/

theorem createHdrImage_mismatch (lib : VisionLib) (imgs : List Raster)
    (times : List ℚ) (hlen : imgs.length ≠ times.length) :
    createHdrImage lib imgs times =
      ([Event.convertRGB2BGR], Except.error (PyErr.valueError mismatchMsg)) := by
  simp [createHdrImage, hlen]

theorem createHdrImage_match (lib : VisionLib) (imgs : List Raster)
    (times : List ℚ) (hlen : imgs.length = times.length) :
    createHdrImage lib imgs times =
      ([Event.convertRGB2BGR, Event.align, Event.mergeDebevec times,
        Event.tonemap 2.2, Event.clampConvert, Event.convertBGR2RGB],
       Except.ok (pipelineOut lib imgs times)) := by
  simp [createHdrImage, hlen, pipelineOut]

/-! Inversion lemmas for the try block and for invoke. -/

theorem tryBlock_store_inv (node : HDRProcessingInvocation) (lib : VisionLib)
    (ctx : Context) (img : Raster) (m : ImageMeta)
    (h : Event.store img m ∈ (tryBlock node lib ctx).1) :
    ∃ imgs, (resolveImages ctx node.input_images).2 = Except.ok imgs ∧
      imgs.length = node.exposure_times.length ∧
      img = pipelineOut lib imgs node.exposure_times ∧
      m = nodeMeta node ctx := by
  have hres := resolve_events ctx node.input_images
  rcases hr : resolveImages ctx node.input_images with ⟨evs, r⟩
  rw [hr] at hres
  have hnostore : Event.store img m ∉ evs := by
    intro hmem
    obtain ⟨n, hn⟩ := hres _ hmem
    exact Event.noConfusion hn
  cases r with
  | error e =>
    simp only [tryBlock, hr] at h
    exact absurd h hnostore
  | ok imgs =>
    by_cases hlen : imgs.length = node.exposure_times.length
    · cases hc : ctx.createImage (pipelineOut lib imgs node.exposure_times)
        (nodeMeta node ctx) with
      | error e =>
        simp only [tryBlock, hr, createHdrImage_match lib imgs _ hlen, hc,
          List.mem_append, List.mem_cons, List.not_mem_nil] at h
        rcases h with h | h
        · exact absurd h hnostore
        · simp at h
      | ok out =>
        simp only [tryBlock, hr, createHdrImage_match lib imgs _ hlen, hc,
          List.append_assoc, List.mem_append, List.mem_cons,
          List.not_mem_nil] at h
        rcases h with h | (h | h | h | h | h | h | h) | h
        · exact absurd h hnostore
        · exact Event.noConfusion h
        · exact Event.noConfusion h
        · exact Event.noConfusion h
        · exact Event.noConfusion h
        · exact Event.noConfusion h
        · exact Event.noConfusion h
        · exact h.elim
        · rcases h with h | h
          · obtain ⟨h1, h2⟩ := Event.store.inj h
            exact ⟨imgs, rfl, hlen, h1, h2⟩
          · exact h.elim
    · simp only [tryBlock, hr, createHdrImage_mismatch lib imgs _ hlen,
        List.mem_append, List.mem_cons, List.not_mem_nil] at h
      rcases h with h | h
      · exact absurd h hnostore
      · simp at h

theorem store_mem_tryBlock_of_invoke (node : HDRProcessingInvocation)
    (lib : VisionLib) (ctx : Context) (img : Raster) (m : ImageMeta)
    (h : Event.store img m ∈ (invoke node lib ctx).1) :
    Event.store img m ∈ (tryBlock node lib ctx).1 := by
  rcases ht : tryBlock node lib ctx with ⟨evs, r⟩
  cases r with
  | ok out => simpa [invoke, ht] using h
  | error e =>
    by_cases hf : e.isFileNotFound = true
    · simp only [invoke, ht, hf, if_true, List.mem_append,
        List.mem_singleton] at h
      rcases h with h | h
      · exact h
      · exact Event.noConfusion h
    · simp only [invoke, ht, hf, if_false, Bool.false_eq_true,
        List.mem_append, List.mem_singleton] at h
      rcases h with h | h
      · exact h
      · exact Event.noConfusion h

theorem store_mem_inv (node : HDRProcessingInvocation) (lib : VisionLib)
    (ctx : Context) (img : Raster) (m : ImageMeta)
    (h : Event.store img m ∈ (invoke node lib ctx).1) :
    ∃ imgs, (resolveImages ctx node.input_images).2 = Except.ok imgs ∧
      imgs.length = node.exposure_times.length ∧
      img = pipelineOut lib imgs node.exposure_times ∧
      m = nodeMeta node ctx :=
  tryBlock_store_inv node lib ctx img m
    (store_mem_tryBlock_of_invoke node lib ctx img m h)

/-! Dimension lemmas. -/

theorem map_rows_dims {α β : Type} (f : List α → List β)
    (hf : ∀ l, (f l).length = l.length) (img : List (List α)) (w h : ℕ)
    (hd : HasDims img w h) : HasDims (img.map f) w h := by
  obtain ⟨h1, h2⟩ := hd
  refine ⟨by simpa using h1, ?_⟩
  intro row hrow
  simp only [List.mem_map] at hrow
  obtain ⟨r0, hr0, rfl⟩ := hrow
  rw [hf r0]
  exact h2 r0 hr0

theorem cvtColor_RGB2BGR_dims (img : Raster) (w h : ℕ) (hd : HasDims img w h) :
    HasDims (cvtColor_RGB2BGR img) w h :=
  map_rows_dims _ (fun l => List.length_map l _) img w h hd

theorem cvtColor_BGR2RGB_dims (img : Raster) (w h : ℕ) (hd : HasDims img w h) :
    HasDims (cvtColor_BGR2RGB img) w h :=
  map_rows_dims _ (fun l => List.length_map l _) img w h hd

theorem scaleClampConvert_dims (img : QRaster) (w h : ℕ) (hd : HasDims img w h) :
    HasDims (scaleClampConvert img) w h :=
  map_rows_dims _ (fun l => List.length_map l _) img w h hd

theorem qOfRaster_dims (img : Raster) (w h : ℕ) (hd : HasDims img w h) :
    HasDims (qOfRaster img) w h :=
  map_rows_dims _ (fun l => List.length_map l _) img w h hd

theorem rasterHeight_of_hasDims {α : Type} (img : List (List α)) (w h : ℕ)
    (hd : HasDims img w h) : rasterHeight img = h := hd.1

theorem rasterWidth_of_hasDims {α : Type} (img : List (List α)) (w h : ℕ)
    (hd : HasDims img w h) (hh : 0 < h) : rasterWidth img = w := by
  obtain ⟨h1, h2⟩ := hd
  cases img with
  | nil => simp at h1; omega
  | cons row rows => exact h2 row (by simp)

theorem pipelineOut_dims (lib : VisionLib) (hlib : DimPreserving lib)
    (imgs : List Raster) (times : List ℚ) (w h : ℕ) (hne : imgs ≠ [])
    (hall : ∀ i ∈ imgs, HasDims i w h) :
    HasDims (pipelineOut lib imgs times) w h := by
  unfold pipelineOut
  apply cvtColor_BGR2RGB_dims
  apply scaleClampConvert_dims
  apply hlib.tonemap_dims
  apply hlib.merge_dims
  · intro h0
    apply hne
    have := hlib.align_length (imgs.map cvtColor_RGB2BGR)
    rw [h0] at this
    simp at this
    exact List.length_eq_zero.mp this.symm
  · intro j hj
    refine hlib.align_dims w h _ ?_ j hj
    intro i hi
    simp only [List.mem_map] at hi
    obtain ⟨i0, hi0, rfl⟩ := hi
    exact cvtColor_RGB2BGR_dims i0 w h (hall i0 hi0)

/-! Lemmas about log-free successful runs. -/

theorem resolve_filter_store (ctx : Context) (fs : List ImageField) :
    (resolveImages ctx fs).1.filter Event.isStore = [] := by
  rw [List.filter_eq_nil_iff]
  intro a ha
  obtain ⟨n, rfl⟩ := resolve_events ctx fs a ha
  simp [Event.isStore]

/-! The claims. -/

/-- C5: converting an image from its native RGB ordering to the merge
library's BGR ordering and back yields channel values identical to the
original, for every image. -/
theorem color_roundtrip (img : Raster) :
    cvtColor_BGR2RGB (cvtColor_RGB2BGR img) = img := by
  induction img with
  | nil => rfl
  | cons row rows ih =>
    simp only [cvtColor_RGB2BGR, cvtColor_BGR2RGB, List.map_cons] at ih ⊢
    rw [map_swapRB_map_swapRB row, ih]

/-- C9: with both input lists empty the length-equality validation passes
(0 = 0) and no validation error is raised by the component; processing
proceeds into the library calls, so no non-emptiness check exists at the
public interface. -/
theorem empty_inputs_no_validation_error (lib : VisionLib) :
    Event.align ∈ (createHdrImage lib [] []).1 ∧
    ∀ m, (createHdrImage lib [] []).2 ≠ Except.error (PyErr.valueError m) := by
  constructor
  · simp [createHdrImage]
  · intro m h
    simp [createHdrImage] at h

/-- C7: on valid inputs (equal list lengths) the pipeline performs, in order,
the per-image color conversion, the alignment of the whole image set, the
Debevec merge of the aligned exposures with their exposure times, tonemapping
with the fixed gamma parameter 2.2, scaling to 8 bit with clamping, and the
conversion back to RGB; the output is the corresponding composition. -/
theorem pipeline_order (lib : VisionLib) (images : List Raster)
    (exposure_times : List ℚ) (hlen : images.length = exposure_times.length) :
    createHdrImage lib images exposure_times =
      ([Event.convertRGB2BGR, Event.align, Event.mergeDebevec exposure_times,
        Event.tonemap 2.2, Event.clampConvert, Event.convertBGR2RGB],
       Except.ok (cvtColor_BGR2RGB (scaleClampConvert (lib.tonemap 2.2
         (lib.mergeDebevec (lib.alignMTB (images.map cvtColor_RGB2BGR))
           exposure_times))))) := by
  rw [createHdrImage_match lib images exposure_times hlen]
  rfl

/-- C3: every pixel channel value of a raster stored by any invocation lies
in [0, 255]: nothing outside that range survives the clamp/convert step. -/
theorem stored_channels_in_range (node : HDRProcessingInvocation)
    (lib : VisionLib) (ctx : Context) (img : Raster) (m : ImageMeta)
    (h : Event.store img m ∈ (invoke node lib ctx).1) :
    ∀ v ∈ rasterChannels img, 0 ≤ v ∧ v ≤ 255 := by
  obtain ⟨imgs, -, -, himg, -⟩ := store_mem_inv node lib ctx img m h
  subst himg
  intro v hv
  exact ⟨Nat.zero_le v, pipelineOut_channels_le lib imgs node.exposure_times v hv⟩

/-- C10: the stored raster is a deterministic function of the resolved input
images and the exposure times: two invocations of the node whose contexts
resolve every input reference to the same pixel data store identical
rasters, whatever their other services and session identifiers do. -/
theorem stored_raster_deterministic (node : HDRProcessingInvocation)
    (lib : VisionLib) (ctx1 ctx2 : Context) (r1 r2 : Raster) (m1 m2 : ImageMeta)
    (hagree : ∀ f ∈ node.input_images,
      ctx1.getPilImage f.image_name = ctx2.getPilImage f.image_name)
    (h1 : Event.store r1 m1 ∈ (invoke node lib ctx1).1)
    (h2 : Event.store r2 m2 ∈ (invoke node lib ctx2).1) :
    r1 = r2 := by
  obtain ⟨imgs1, he1, -, hr1, -⟩ := store_mem_inv node lib ctx1 r1 m1 h1
  obtain ⟨imgs2, he2, -, hr2, -⟩ := store_mem_inv node lib ctx2 r2 m2 h2
  rw [resolveImages_congr ctx1 ctx2 node.input_images hagree] at he1
  rw [he2] at he1
  obtain rfl := Except.ok.inj he1
  rw [hr1, hr2]

/-- C8: every failure of the try block other than a FileNotFoundError is
logged and re-raised unchanged; the trace is extended only by the log entry,
so nothing is retried inside the component. -/
theorem other_errors_logged_reraised (node : HDRProcessingInvocation)
    (lib : VisionLib) (ctx : Context) (e : PyErr)
    (he : (tryBlock node lib ctx).2 = Except.error e)
    (hnf : e.isFileNotFound = false) :
    invoke node lib ctx =
      ((tryBlock node lib ctx).1 ++
        [Event.logError ("Unexpected error: " ++ e.msg)], Except.error e) := by
  rcases ht : tryBlock node lib ctx with ⟨evs, r⟩
  rw [ht] at he
  obtain rfl : r = Except.error e := he
  simp [invoke, ht, hnf]

/-- C2: a not-found failure while resolving an input image is logged and
converted into the empty output record instead of raising; and this
conversion applies to no other error kind, every other failure of the try
block being re-raised. -/
theorem notFound_soft_fail (node : HDRProcessingInvocation) (lib : VisionLib)
    (ctx : Context) :
    (∀ m, (resolveImages ctx node.input_images).2 =
        Except.error (PyErr.fileNotFound m) →
      invoke node lib ctx =
        ((resolveImages ctx node.input_images).1 ++
          [Event.logError ("File not found: " ++ m)],
         Except.ok emptyImageOutput)) ∧
    (∀ e, (tryBlock node lib ctx).2 = Except.error e →
      e.isFileNotFound = false → (invoke node lib ctx).2 = Except.error e) := by
  constructor
  · intro m hm
    rcases hr : resolveImages ctx node.input_images with ⟨evs, r⟩
    rw [hr] at hm
    obtain rfl : r = Except.error (PyErr.fileNotFound m) := hm
    have htb : tryBlock node lib ctx =
        (evs, Except.error (PyErr.fileNotFound m)) := by
      simp only [tryBlock, hr]
    simp [invoke, htb, PyErr.isFileNotFound, PyErr.msg]
  · intro e he hnf
    rcases ht : tryBlock node lib ctx with ⟨evs, r⟩
    rw [ht] at he
    obtain rfl : r = Except.error e := he
    simp [invoke, ht, hnf]

/-- C1 as stated is false on two counts: with a missing input image and
mismatched list lengths the operation returns the empty output instead of
raising a validation error, and with resolvable inputs the per-image color
conversion (a processing step on the images) is performed before the
validation error is raised. -/
theorem length_mismatch_counterexample :
    ((invoke cNode wLib cCtxMissing).2 = Except.ok emptyImageOutput) ∧
    (Event.convertRGB2BGR ∈ (invoke cNode wLib wCtx).1 ∧
      (invoke cNode wLib wCtx).2 =
        Except.error (PyErr.valueError mismatchMsg)) := by
  refine ⟨by decide, by decide, by decide⟩

/-- C1 (amended): if every input image reference resolves, a length mismatch
makes the operation raise the validation error mentioning the count mismatch
synchronously, before any alignment, merge, tonemap or clamp step is
attempted (the per-image color conversion having already run), and no output
image is stored. -/
theorem mismatch_validation_error (node : HDRProcessingInvocation)
    (lib : VisionLib) (ctx : Context)
    (hres : ∀ f ∈ node.input_images, ∃ img,
      ctx.getPilImage f.image_name = Except.ok img)
    (hlen : node.input_images.length ≠ node.exposure_times.length) :
    (invoke node lib ctx).2 = Except.error (PyErr.valueError mismatchMsg) ∧
    (∀ img m, Event.store img m ∉ (invoke node lib ctx).1) ∧
    Event.align ∉ (invoke node lib ctx).1 ∧
    (∀ t, Event.mergeDebevec t ∉ (invoke node lib ctx).1) ∧
    (∀ g, Event.tonemap g ∉ (invoke node lib ctx).1) ∧
    Event.clampConvert ∉ (invoke node lib ctx).1 := by
  obtain ⟨imgs, hres_eq, hlen_imgs, -⟩ :=
    resolveImages_ok ctx node.input_images (fun _ => True)
      (fun f hf => (hres f hf).imp fun i hi => ⟨hi, trivial⟩)
  have hlen2 : imgs.length ≠ node.exposure_times.length := by
    rw [hlen_imgs]; exact hlen
  have htb : tryBlock node lib ctx =
      ((node.input_images.map fun f => Event.getImage f.image_name) ++
        [Event.convertRGB2BGR],
       Except.error (PyErr.valueError mismatchMsg)) := by
    simp only [tryBlock, hres_eq, createHdrImage_mismatch lib imgs _ hlen2]
  have hinv : invoke node lib ctx =
      (((node.input_images.map fun f => Event.getImage f.image_name) ++
        [Event.convertRGB2BGR]) ++
        [Event.logError ("Unexpected error: " ++ mismatchMsg)],
       Except.error (PyErr.valueError mismatchMsg)) := by
    simp [invoke, htb, PyErr.isFileNotFound, PyErr.msg]
  refine ⟨by rw [hinv], ?_, ?_, ?_, ?_, ?_⟩
  · intro img m
    rw [hinv]
    simp
  · rw [hinv]
    simp
  · intro t
    rw [hinv]
    simp
  · intro g
    rw [hinv]
    simp
  · rw [hinv]
    simp

/-- C4: for non-empty, equal-length input lists whose references all resolve
to rasters of the same positive dimensions, and with collaborators behaving
as the spec describes (dimension-preserving library operations and a storage
service that reports the stored raster's dimensions), the operation produces
an output record whose width and height are strictly positive and match the
input raster dimensions. -/
theorem output_dims_match (node : HDRProcessingInvocation) (lib : VisionLib)
    (ctx : Context) (w h : ℕ)
    (hlen : node.input_images.length = node.exposure_times.length)
    (hne : node.input_images ≠ []) (hw : 0 < w) (hh : 0 < h)
    (hres : ∀ f ∈ node.input_images, ∃ img,
      ctx.getPilImage f.image_name = Except.ok img ∧ HasDims img w h)
    (hlib : DimPreserving lib)
    (hcreate : ∀ r m, ∃ rec, ctx.createImage r m = Except.ok rec ∧
      rec.width = rasterWidth r ∧ rec.height = rasterHeight r) :
    ∃ out, (invoke node lib ctx).2 = Except.ok out ∧
      out.width = w ∧ out.height = h ∧ 0 < out.width ∧ 0 < out.height := by
  obtain ⟨imgs, hres_eq, hlen_imgs, hall⟩ :=
    resolveImages_ok ctx node.input_images (fun i => HasDims i w h) hres
  have hlen2 : imgs.length = node.exposure_times.length := by
    rw [hlen_imgs]; exact hlen
  have hne2 : imgs ≠ [] := by
    intro h0
    apply hne
    rw [h0] at hlen_imgs
    exact (List.length_eq_zero.mp hlen_imgs.symm)
  have hdims := pipelineOut_dims lib hlib imgs node.exposure_times w h hne2 hall
  obtain ⟨rec, hcrec, hwidth, hheight⟩ :=
    hcreate (pipelineOut lib imgs node.exposure_times) (nodeMeta node ctx)
  have htb : tryBlock node lib ctx =
      ((node.input_images.map fun f => Event.getImage f.image_name) ++
        ([Event.convertRGB2BGR, Event.align,
          Event.mergeDebevec node.exposure_times, Event.tonemap 2.2,
          Event.clampConvert, Event.convertBGR2RGB] ++
         [Event.store (pipelineOut lib imgs node.exposure_times)
            (nodeMeta node ctx)]),
       Except.ok ⟨some ⟨rec.image_name⟩, rec.width, rec.height⟩) := by
    simp only [tryBlock, hres_eq, createHdrImage_match lib imgs _ hlen2, hcrec,
      List.append_assoc]
  refine ⟨⟨some ⟨rec.image_name⟩, rec.width, rec.height⟩, ?_, ?_, ?_, ?_, ?_⟩
  · simp [invoke, htb]
  · rw [hwidth]
    exact rasterWidth_of_hasDims _ w h hdims hh
  · rw [hheight]
    exact rasterHeight_of_hasDims _ w h hdims
  · rw [hwidth, rasterWidth_of_hasDims _ w h hdims hh]
    exact hw
  · rw [hheight, rasterHeight_of_hasDims _ w h hdims]
    exact hh

/-- C6: an invocation that completes without any handled failure (its result
is a success and nothing was logged) creates exactly one stored image, whose
metadata marks it internally originated and general category and carries the
node id, the session id and the node's intermediate-result flag. -/
theorem single_store_per_success (node : HDRProcessingInvocation)
    (lib : VisionLib) (ctx : Context) (out : ImageOutput)
    (_hok : (invoke node lib ctx).2 = Except.ok out)
    (hnolog : ∀ e ∈ (invoke node lib ctx).1, e.isLogError = false) :
    ∃ img, (invoke node lib ctx).1.filter Event.isStore =
      [Event.store img ⟨ResourceOrigin.internal, ImageCategory.general,
        node.id, ctx.graph_execution_state_id, node.is_intermediate⟩] := by
  rcases ht : tryBlock node lib ctx with ⟨evs, r⟩
  cases r with
  | error e =>
    exfalso
    by_cases hf : e.isFileNotFound = true
    · have hmem : Event.logError ("File not found: " ++ e.msg) ∈
          (invoke node lib ctx).1 := by
        simp [invoke, ht, hf]
      have := hnolog _ hmem
      simp [Event.isLogError] at this
    · have hmem : Event.logError ("Unexpected error: " ++ e.msg) ∈
          (invoke node lib ctx).1 := by
        simp [invoke, ht, hf]
      have := hnolog _ hmem
      simp [Event.isLogError] at this
  | ok o =>
    have hinv : invoke node lib ctx = (evs, Except.ok o) := by
      simp [invoke, ht]
    have hres_ev := resolve_events ctx node.input_images
    have hres_st := resolve_filter_store ctx node.input_images
    rcases hr : resolveImages ctx node.input_images with ⟨evsR, rr⟩
    rw [hr] at hres_ev hres_st
    cases rr with
    | error e =>
      simp only [tryBlock, hr] at ht
      obtain ⟨-, h2⟩ := Prod.mk.inj ht
      exact Except.noConfusion h2
    | ok imgs =>
      by_cases hlen : imgs.length = node.exposure_times.length
      · cases hc : ctx.createImage (pipelineOut lib imgs node.exposure_times)
            (nodeMeta node ctx) with
        | error e =>
          simp only [tryBlock, hr, createHdrImage_match lib imgs _ hlen,
            hc] at ht
          obtain ⟨-, h2⟩ := Prod.mk.inj ht
          exact Except.noConfusion h2
        | ok rec =>
          simp only [tryBlock, hr, createHdrImage_match lib imgs _ hlen,
            hc] at ht
          obtain ⟨h1, -⟩ := Prod.mk.inj ht
          refine ⟨pipelineOut lib imgs node.exposure_times, ?_⟩
          rw [hinv]
          simp only [← h1, List.filter_append, hres_st]
          simp [Event.isStore, nodeMeta]
      · simp only [tryBlock, hr, createHdrImage_mismatch lib imgs _ hlen] at ht
        obtain ⟨-, h2⟩ := Prod.mk.inj ht
        exact Except.noConfusion h2

/-! Witnesses: the theorems above applied at explicit concrete inputs. -/

theorem wRaster_dims : HasDims wRaster 1 1 := by
  simp [HasDims, wRaster]

theorem wLib_dimPreserving : DimPreserving wLib := by
  constructor
  · intro imgs
    rfl
  · intro w h imgs hall j hj
    exact hall j hj
  · intro w h imgs times hne hall
    cases imgs with
    | nil => exact absurd rfl hne
    | cons i rest => exact qOfRaster_dims i w h (hall i (by simp))
  · intro w h g x hd
    exact hd

theorem wTrace_eq : (invoke wNode wLib wCtx).1 =
    [Event.getImage "a", Event.getImage "b", Event.convertRGB2BGR, Event.align,
     Event.mergeDebevec [1, 2], Event.tonemap 2.2, Event.clampConvert,
     Event.convertBGR2RGB, Event.store wStored (nodeMeta wNode wCtx)] := rfl

theorem wTrace2_eq : (invoke wNode wLib wCtx2).1 =
    [Event.getImage "a", Event.getImage "b", Event.convertRGB2BGR, Event.align,
     Event.mergeDebevec [1, 2], Event.tonemap 2.2, Event.clampConvert,
     Event.convertBGR2RGB, Event.store wStored (nodeMeta wNode wCtx2)] := rfl

theorem wStore_mem : Event.store wStored (nodeMeta wNode wCtx) ∈
    (invoke wNode wLib wCtx).1 := by
  rw [wTrace_eq]
  simp

theorem wStore_mem2 : Event.store wStored (nodeMeta wNode wCtx2) ∈
    (invoke wNode wLib wCtx2).1 := by
  rw [wTrace2_eq]
  simp

/-- Witness for the amended C1, at a node with one image and no exposure
time, against a context that resolves every reference. -/
theorem mismatch_validation_error_witness :
    (∀ f ∈ cNode.input_images, ∃ img,
      wCtx.getPilImage f.image_name = Except.ok img) ∧
    cNode.input_images.length ≠ cNode.exposure_times.length ∧
    (invoke cNode wLib wCtx).2 = Except.error (PyErr.valueError mismatchMsg) :=
  ⟨fun _ _ => ⟨wRaster, rfl⟩, by decide,
   (mismatch_validation_error cNode wLib wCtx (fun _ _ => ⟨wRaster, rfl⟩)
     (by decide)).1⟩

/-- Witness for C2: the not-found path returns the empty output, and the
validation error is re-raised rather than converted. -/
theorem notFound_soft_fail_witness :
    (invoke cNode wLib cCtxMissing).2 = Except.ok emptyImageOutput ∧
    (invoke cNode wLib wCtx).2 = Except.error (PyErr.valueError mismatchMsg) := by
  constructor
  · exact congrArg Prod.snd
      ((notFound_soft_fail cNode wLib cCtxMissing).1 "img" (by decide))
  · exact (notFound_soft_fail cNode wLib wCtx).2 (PyErr.valueError mismatchMsg)
      (by decide) (by decide)

/-- Witness for C3 at a concrete stored raster. -/
theorem stored_channels_in_range_witness :
    Event.store wStored (nodeMeta wNode wCtx) ∈ (invoke wNode wLib wCtx).1 ∧
    ∀ v ∈ rasterChannels wStored, 0 ≤ v ∧ v ≤ 255 :=
  ⟨wStore_mem, stored_channels_in_range wNode wLib wCtx wStored
    (nodeMeta wNode wCtx) wStore_mem⟩

/-- Witness for C4 on two 1×1 inputs. -/
theorem output_dims_match_witness :
    wNode.input_images.length = wNode.exposure_times.length ∧
    ∃ out, (invoke wNode wLib wCtx).2 = Except.ok out ∧
      out.width = 1 ∧ out.height = 1 ∧ 0 < out.width ∧ 0 < out.height :=
  ⟨by decide,
   output_dims_match wNode wLib wCtx 1 1 (by decide) (by decide) (by decide)
     (by decide) (fun _ _ => ⟨wRaster, rfl, wRaster_dims⟩) wLib_dimPreserving
     (fun r m => ⟨⟨"out", rasterWidth r, rasterHeight r⟩, rfl, rfl, rfl⟩)⟩

/-- Witness for C6: a log-free successful run stores exactly one image. -/
theorem single_store_per_success_witness :
    ∃ img, (invoke wNode wLib wCtx).1.filter Event.isStore =
      [Event.store img ⟨ResourceOrigin.internal, ImageCategory.general,
        wNode.id, wCtx.graph_execution_state_id, wNode.is_intermediate⟩] :=
  single_store_per_success wNode wLib wCtx ⟨some ⟨"out"⟩, 1, 1⟩ (by decide)
    (by decide)

/-- Witness for C7 on a single input image. -/
theorem pipeline_order_witness :
    createHdrImage wLib [wRaster] [1] =
      ([Event.convertRGB2BGR, Event.align, Event.mergeDebevec [1],
        Event.tonemap 2.2, Event.clampConvert, Event.convertBGR2RGB],
       Except.ok (cvtColor_BGR2RGB (scaleClampConvert (wLib.tonemap 2.2
         (wLib.mergeDebevec (wLib.alignMTB ([wRaster].map cvtColor_RGB2BGR))
           [1]))))) :=
  pipeline_order wLib [wRaster] [1] rfl

/-- Witness for C8: the validation error is logged and re-raised unchanged. -/
theorem other_errors_logged_reraised_witness :
    invoke cNode wLib wCtx =
      ((tryBlock cNode wLib wCtx).1 ++
        [Event.logError ("Unexpected error: " ++
          (PyErr.valueError mismatchMsg).msg)],
       Except.error (PyErr.valueError mismatchMsg)) :=
  other_errors_logged_reraised cNode wLib wCtx (PyErr.valueError mismatchMsg)
    (by decide) (by decide)

/-- Witness for C5 at a concrete raster. -/
theorem color_roundtrip_witness :
    cvtColor_BGR2RGB (cvtColor_RGB2BGR wRaster) = wRaster :=
  color_roundtrip wRaster

/-- Witness for C9 at a concrete choice of library functions. -/
theorem empty_inputs_no_validation_error_witness :
    Event.align ∈ (createHdrImage wLib [] []).1 ∧
    ∀ m, (createHdrImage wLib [] []).2 ≠ Except.error (PyErr.valueError m) :=
  empty_inputs_no_validation_error wLib

/-- Witness for C10: two runs against contexts with the same image service
(but different storage services and session ids) store the same raster. -/
theorem stored_raster_deterministic_witness :
    Event.store wStored (nodeMeta wNode wCtx) ∈ (invoke wNode wLib wCtx).1 ∧
    Event.store wStored (nodeMeta wNode wCtx2) ∈ (invoke wNode wLib wCtx2).1 ∧
    wStored = wStored :=
  ⟨wStore_mem, wStore_mem2,
   stored_raster_deterministic wNode wLib wCtx wCtx2 wStored wStored
     (nodeMeta wNode wCtx) (nodeMeta wNode wCtx2) (fun _ _ => rfl)
     wStore_mem wStore_mem2⟩

end HDR
